import Mathlib

/-!
Verification of the VRGDA curve-plotting scripts (aminals-v3).

The repository holds four standalone Python scripts that read a CSV of
(eth_amount, love_multiplier) pairs and render the curve in several formats:
  * `analysis/python/plot_vrgda_curve.py`      (matplotlib PNG/PDF)
  * `script/python/plot_vrgda_curve_simple.py` (ASCII chart and text summary)
  * `script/python/generate_vrgda_chart.py`    (hand-built SVG + HTML)
  * `script/python/generate_vrgda_png.py`      (PIL PNG, with a manual
    pixel-buffer fallback writing a PPM file)

This file shallowly embeds the data model and the shared algorithms of these
scripts (the log-scale coordinate transform, the closest-sample searches, the
threshold scans, the CSV loader, the console-output structure, and the
fallback rasterizer's write pattern) and proves the properties claimed in the
specification about them.  Real-valued quantities computed with `math.log10`
and `math.sqrt` are modelled over `ℝ`; exact list/compare logic is modelled
over `ℚ` so that concrete instances are decidable.
-/

namespace VRGDA

/-! ## Coordinate mapping (generate_vrgda_chart.py lines 26-31, 80-84;
identical constants and formulas in generate_vrgda_png.py lines 36-39, 96-101). -/

/-- SVG/PNG image width in pixels (`width = 800`). -/
def width : ℝ := 800

/-- SVG/PNG image height in pixels (`height = 600`). -/
def height : ℝ := 600

/-- Chart margin in pixels (`margin = 60`). -/
def margin : ℝ := 60

/-- Chart width, `chart_width = width - 2 * margin`. -/
def chart_width : ℝ := width - 2 * margin

/-- Chart height, `chart_height = height - 2 * margin`. -/
def chart_height : ℝ := height - 2 * margin

/-- The log-scale x mapping used by both the SVG and the PNG scripts:
`x = margin + (log10(eth) - log10(0.0001)) / (log10(200) - log10(0.0001)) * chart_width`. -/
noncomputable def mapX (x : ℝ) : ℝ :=
  margin + (Real.logb 10 x - Real.logb 10 0.0001) /
    (Real.logb 10 200 - Real.logb 10 0.0001) * chart_width

/-- The linear y mapping used by both the SVG and the PNG scripts:
`y = margin + (10 - mult) * chart_height / 10`. -/
noncomputable def mapY (m : ℝ) : ℝ :=
  margin + (10 - m) * chart_height / 10

/-! Spec-side formulation of the same mapping, written with the named
parameters `x_min`, `x_max`, `y_max` exactly as the specification states it,
to be compared with the code-side `mapX`/`mapY`. -/

/-- Spec parameter `x_min = 0.0001`. -/
def x_min : ℝ := 0.0001

/-- Spec parameter `x_max = 200`. -/
def x_max : ℝ := 200

/-- Spec parameter `y_max = 10`. -/
def y_max : ℝ := 10

/-- Modelled from the spec: `column = margin + (log10(x) - log10(x_min)) /
(log10(x_max) - log10(x_min)) * chart_width`. -/
noncomputable def specColumn (x : ℝ) : ℝ :=
  margin + (Real.logb 10 x - Real.logb 10 x_min) /
    (Real.logb 10 x_max - Real.logb 10 x_min) * chart_width

/-- Modelled from the spec: `row = margin + (y_max - y) / y_max * chart_height`. -/
noncomputable def specRow (y : ℝ) : ℝ :=
  margin + (y_max - y) / y_max * chart_height

/-! ## Running-minimum loops (closest-sample searches)

Both `plot_vrgda_curve.py` (lines 89-96) and `plot_vrgda_curve_simple.py`
(lines 54-59) scan the dataset keeping the smallest distance seen so far
(`min_diff`, initialised to `float('inf')`) together with a payload recorded
at the current best element (`actual_y` resp. `closest_idx`), replacing the
state exactly when the new distance is strictly smaller. -/

/-- One iteration of the running-minimum loop: `k` is the distance, `v` the
payload; the first component `none` plays the role of the initial
`float('inf')`; an element replaces the state iff its distance is strictly
below the recorded minimum (`if abs(...) < min_diff`). -/
def minStep {α β γ : Type} [LinearOrder β] (k : α → β) (v : α → γ)
    (acc : Option β × γ) (a : α) : Option β × γ :=
  match acc.1 with
  | none => (some (k a), v a)
  | some d => if k a < d then (some (k a), v a) else acc

/-- The whole running-minimum loop over a list, starting from
`min_diff = float('inf')` and default payload `d`, returning the final
payload. -/
def trackMin {α β γ : Type} [LinearOrder β] (k : α → β) (v : α → γ)
    (d : γ) (l : List α) : γ :=
  (l.foldl (minStep k v) (none, d)).2

/-- From `plot_vrgda_curve.py` lines 89-96: for a key point at target `x` with
fallback `y_target`, scan the zipped dataset keeping `actual_y`, the
multiplier of the sample whose `eth` is closest (by `abs(eth - x)`) to the
target; `samples` is `zip eth_amounts love_multipliers`. -/
def keyPointY (x y_target : ℚ) (samples : List (ℚ × ℚ)) : ℚ :=
  trackMin (fun p => |p.1 - x|) Prod.snd y_target samples

/-- From `plot_vrgda_curve_simple.py` lines 54-59: for a column's
`eth_position`, scan `enumerate(eth_amounts)` keeping `closest_idx`, the
index of the sample minimising `abs(math.log(eth) - math.log(eth_position))`
(natural log), starting from `closest_idx = 0`. -/
noncomputable def closest_idx (eth_position : ℝ) (eth_amounts : List ℝ) : ℕ :=
  trackMin (fun p => |Real.log p.2 - Real.log eth_position|) Prod.fst 0
    eth_amounts.enum

/-- The tolerance test of `plot_vrgda_curve_simple.py` line 102:
`abs(eth - eth_target) < 0.01 or (eth_target >= 1 and
abs(eth - eth_target) < eth_target * 0.1)`. -/
def tableTol (eth_target eth : ℚ) : Prop :=
  |eth - eth_target| < 1 / 100 ∨
    (1 ≤ eth_target ∧ |eth - eth_target| < eth_target * (1 / 10))

instance (t e : ℚ) : Decidable (tableTol t e) := by
  unfold tableTol
  infer_instance

/-- From `plot_vrgda_curve_simple.py` lines 98-106 (KEY THRESHOLDS table): starting
from `closest_mult = 0`, take the multiplier of the FIRST sample whose `eth`
is within `tableTol` of the target and break; if no sample qualifies the
initial `0` survives. -/
def thresholdTableMult (eth_target : ℚ) : List (ℚ × ℚ) → ℚ
  | [] => 0
  | (eth, mult) :: rest =>
    if tableTol eth_target eth then mult
    else thresholdTableMult eth_target rest

/-- The CSV loading loop shared by all four scripts (`plot_vrgda_curve.py`
lines 20-24, `plot_vrgda_curve_simple.py` lines 19-23,
`generate_vrgda_chart.py` lines 20-24, `generate_vrgda_png.py` lines 28-32):
for each row in file order, append `float(row['eth_amount'])` to
`eth_amounts` and `float(row['love_multiplier'])` to `love_multipliers`.
A row field is `none` when `float(...)` would raise (the text does not parse
as a number); the raised error aborts the whole load with no retry. -/
def loadRows : List (Option ℚ × Option ℚ) → Except Unit (List ℚ × List ℚ)
  | [] => Except.ok ([], [])
  | (ox, oy) :: rest =>
    match ox, oy with
    | some x, some y =>
      match loadRows rest with
      | Except.ok (xs, ys) => Except.ok (x :: xs, y :: ys)
      | Except.error e => Except.error e
    | _, _ => Except.error ()

/-- The loader including the `open` call: the argument is `none` when the file
is missing or unreadable (Python raises `OSError`, which propagates). -/
def loadCSV : Option (List (Option ℚ × Option ℚ)) →
    Except Unit (List ℚ × List ℚ)
  | none => Except.error ()
  | some rows => loadRows rows

/-- From `plot_vrgda_curve.py` lines 53-59: zone boundaries and labels of the
matplotlib script (`zones`). -/
noncomputable def zones_plot : List (ℝ × String) :=
  [(0.001, "Starving"), (0.1, "Hungry"), (1, "Fed"), (10, "Well-Fed"),
   (100, "Overfed")]

/-- From `plot_vrgda_curve.py` lines 61-72: the zone-label x positions, built by
scanning `zones` with `prev_x` starting at 0.0001 and placing each label at
`sqrt(prev_x * x)` (geometric mean) when `prev_x < 1`, else at the arithmetic
mean `(prev_x + x) / 2`. -/
noncomputable def zoneLabelXs : List ℝ :=
  (zones_plot.foldl
    (fun (acc : List ℝ × ℝ) z =>
      (acc.1 ++ [if acc.2 < 1 then Real.sqrt (acc.2 * z.1)
                 else (acc.2 + z.1) / 2],
       z.1))
    ([], 0.0001)).1

/-- From `generate_vrgda_chart.py` lines 119-121: the x pixel position of a zone
label for the zone [start, end), `x_center = margin + ((log10(start) +
log10(end)) / 2 - log10(0.0001)) / (log10(200) - log10(0.0001)) *
chart_width`. -/
noncomputable def x_center (s e : ℝ) : ℝ :=
  margin + ((Real.logb 10 s + Real.logb 10 e) / 2 - Real.logb 10 0.0001) /
    (Real.logb 10 200 - Real.logb 10 0.0001) * chart_width

/-- From `plot_vrgda_curve.py` lines 126-136: scan the multipliers in input order
and stop at the first one strictly below `threshold`, returning its index
(`none` when no multiplier is below the threshold, in which case the script
prints nothing for that threshold). -/
def firstBelowIdx (threshold : ℚ) : List ℚ → Option ℕ
  | [] => none
  | mult :: rest =>
    if mult < threshold then some 0
    else (firstBelowIdx threshold rest).map (fun n => n + 1)

/-! ## Console output structure

Each script's sequence of `print` calls, with every printed line classified
by what it reports.  A line whose text interpolates a computed value carries
that value. -/

/-- One console line, classified by content. -/
inductive ConsoleItem : Type
  /-- an "<artifact> saved to: <path>" line -/
  | savedTo (name : String)
  /-- a line reporting the dataset's minimum x (`min(eth_amounts)`) -/
  | summaryMinX (v : ℚ)
  /-- a line reporting the dataset's maximum x (`max(eth_amounts)`) -/
  | summaryMaxX (v : ℚ)
  /-- a line reporting the dataset's minimum y (`min(love_multipliers)`) -/
  | summaryMinY (v : ℚ)
  /-- a line reporting the dataset's maximum y (`max(love_multipliers)`) -/
  | summaryMaxY (v : ℚ)
  /-- a "multiplier drops below <threshold> at <x> ETH" line -/
  | crossing (threshold x : ℚ)
  /-- one KEY THRESHOLDS table row -/
  | tableRow (target mult : ℚ) (zone : String)
  /-- the ASCII chart art block -/
  | chartArt
  /-- any other informational text -/
  | note (text : String)
  deriving DecidableEq

/-- Whether a console line reports dataset statistics (range values,
threshold crossings, or threshold-table rows). -/
def isStatB : ConsoleItem → Bool
  | ConsoleItem.summaryMinX _ => true
  | ConsoleItem.summaryMaxX _ => true
  | ConsoleItem.summaryMinY _ => true
  | ConsoleItem.summaryMaxY _ => true
  | ConsoleItem.crossing _ _ => true
  | ConsoleItem.tableRow _ _ _ => true
  | _ => false

/-- Python `min` over a list; the scripts call it only on the non-empty
dataset (on `[]` Python raises, and the junk value 0 here is never relied
on: the theorems assume a non-empty dataset). -/
def pyMin : List ℚ → ℚ
  | [] => 0
  | x :: xs => xs.foldl min x

/-- Python `max` over a list; same convention as `pyMin`. -/
def pyMax : List ℚ → ℚ
  | [] => 0
  | x :: xs => xs.foldl max x

/-- The availability environment probed by `generate_vrgda_png.py`: whether
PIL imports (line 17-21) and which conversion utilities `shutil.which` finds
(lines 248, 256, 266). -/
structure Env : Type where
  hasPIL : Bool
  hasMagick : Bool
  hasConvert : Bool
  hasSips : Bool

/-- From `plot_vrgda_curve.py` lines 110-136: console lines of the matplotlib
script, in print order — the two artifact messages, then the summary block
(min/max of both columns), then one crossing line per threshold found. -/
def plotConsole (eth_amounts love_multipliers : List ℚ) : List ConsoleItem :=
  [ConsoleItem.savedTo "vrgda_curve_chart.png",
   ConsoleItem.savedTo "vrgda_curve_chart.pdf",
   ConsoleItem.note "VRGDA Curve Summary:",
   ConsoleItem.summaryMinX (pyMin eth_amounts),
   ConsoleItem.summaryMaxX (pyMax eth_amounts),
   ConsoleItem.summaryMaxY (pyMax love_multipliers),
   ConsoleItem.summaryMinY (pyMin love_multipliers)] ++
  (match firstBelowIdx 5 love_multipliers with
   | some i => [ConsoleItem.crossing 5 (eth_amounts.getD i 0)]
   | none => []) ++
  (match firstBelowIdx 1 love_multipliers with
   | some i => [ConsoleItem.crossing 1 (eth_amounts.getD i 0)]
   | none => [])

/-- From `plot_vrgda_curve_simple.py` lines 88-96: the KEY THRESHOLDS targets and
zone names. -/
def zones_simple : List (ℚ × String) :=
  [(1 / 1000, "Starving"), (1 / 100, "Hungry"), (1 / 10, "Hungry"),
   (1, "Fed"), (10, "Well-Fed"), (50, "Overfed"), (100, "Extremely Overfed")]

/-- From `plot_vrgda_curve_simple.py` lines 26-124: console lines of the ASCII
script in print order — chart art, summary ranges, the KEY THRESHOLDS table,
then the summary-file message (the file itself is written just before that
last line). -/
def simpleConsole (eth_amounts love_multipliers : List ℚ) : List ConsoleItem :=
  [ConsoleItem.chartArt,
   ConsoleItem.note "SUMMARY STATISTICS:",
   ConsoleItem.summaryMinX (pyMin eth_amounts),
   ConsoleItem.summaryMaxX (pyMax eth_amounts),
   ConsoleItem.summaryMinY (pyMin love_multipliers),
   ConsoleItem.summaryMaxY (pyMax love_multipliers),
   ConsoleItem.note "KEY THRESHOLDS:"] ++
  (zones_simple.map (fun z =>
    ConsoleItem.tableRow z.1
      (thresholdTableMult z.1 (eth_amounts.zip love_multipliers)) z.2)) ++
  [ConsoleItem.savedTo "vrgda_curve_summary.txt"]

/-- From `generate_vrgda_chart.py` lines 132, 235-236: console lines of the SVG
script — only the two artifact messages and a closing note; no dataset
statistics are printed. -/
def chartConsole (_eth_amounts _love_multipliers : List ℚ) : List ConsoleItem :=
  [ConsoleItem.savedTo "vrgda_curve_chart.svg",
   ConsoleItem.savedTo "vrgda_curve_chart.html",
   ConsoleItem.note
     "You can open the HTML file in a web browser to view the interactive chart."]

/-- From `generate_vrgda_png.py` lines 152, 156, 239-282: console lines of the
PNG script.  With PIL, only the artifact message; otherwise the fallback
note, the PPM message, and either the converted-PNG message (when one of the
probed conversion tools is available; a successful conversion is assumed) or
the could-not-convert note.  No dataset statistics are printed on any
path. -/
def pngConsole (env : Env) (_eth_amounts _love_multipliers : List ℚ) :
    List ConsoleItem :=
  if env.hasPIL then [ConsoleItem.savedTo "vrgda_curve_chart.png"]
  else
    [ConsoleItem.note "PIL not available. Generating simple bitmap...",
     ConsoleItem.savedTo "vrgda_curve_chart.ppm"] ++
    (if env.hasMagick || env.hasConvert || env.hasSips then
      [ConsoleItem.savedTo "vrgda_curve_chart.png"]
    else
      [ConsoleItem.note
        "Could not convert to PNG automatically. PPM file is available."])

/-! ## SVG artifact structure (generate_vrgda_chart.py lines 26-133) -/

/-- One SVG element as emitted by the SVG script; `textNum` is a text node
whose content is the decimal rendering of a computed number. -/
inductive SvgElem : Type
  | rect (x y w h : ℝ) (fill : String)
  | line (x1 y1 x2 y2 : ℝ) (stroke : String)
  | text (x y : ℝ) (content : String)
  | textNum (x y value : ℝ)
  | polyline (pts : List (ℝ × ℝ))
  | circle (cx cy r : ℝ)

/-- From `generate_vrgda_chart.py` lines 46-53: zone boundaries, fill colors and
labels (`zones`). -/
noncomputable def zones_svg : List (ℝ × ℝ × String × String) :=
  [(0.0001, 0.001, "#FFE5E5", "Starving"),
   (0.001, 0.1, "#FFF0E5", "Hungry"),
   (0.1, 1, "#E5F5E5", "Fed"),
   (1, 10, "#E5E5FF", "Well-Fed"),
   (10, 100, "#F0E5FF", "Overfed"),
   (100, 200, "#FFE5E5", "Extreme")]

/-- From `generate_vrgda_chart.py` lines 80-84: the polyline points, mapping each
sample with the log-scale x transform and the linear y transform. -/
noncomputable def curvePoints (eth_amounts love_multipliers : List ℝ) :
    List (ℝ × ℝ) :=
  (eth_amounts.zip love_multipliers).map (fun p => (mapX p.1, mapY p.2))

/-- From `generate_vrgda_chart.py` lines 90-93: the data-point circle centres,
recomputed by a second loop with the same inline formulas. -/
noncomputable def circleCenters (eth_amounts love_multipliers : List ℝ) :
    List (ℝ × ℝ) :=
  (eth_amounts.zip love_multipliers).map (fun p =>
    (margin + (Real.logb 10 p.1 - Real.logb 10 0.0001) /
      (Real.logb 10 200 - Real.logb 10 0.0001) * chart_width,
     margin + (10 - p.2) * chart_height / 10))

/-- From `generate_vrgda_chart.py` lines 73-77: the x-axis tick values. -/
noncomputable def x_labels : List ℝ := [0.0001, 0.001, 0.01, 0.1, 1, 10, 100]

/-- From `generate_vrgda_chart.py` lines 34-123: the full SVG document as the
ordered list of its elements (title, chart frame, zone bands, grid lines and
labels, tick lines and labels, curve polyline, data-point circles, threshold
lines, axis labels, zone labels). -/
noncomputable def svgElems (eth_amounts love_multipliers : List ℝ) :
    List SvgElem :=
  [SvgElem.rect 0 0 width height "white",
   SvgElem.text (width / 2) 30 "Aminal VRGDA Love Curve",
   SvgElem.rect margin margin chart_width chart_height "none"] ++
  (zones_svg.map (fun z =>
    SvgElem.rect (mapX z.1) margin (mapX z.2.1 - mapX z.1) chart_height
      z.2.2.1)) ++
  ((List.range 11).map (fun i =>
    SvgElem.line margin (margin + (i : ℝ) * chart_height / 10)
      (margin + chart_width) (margin + (i : ℝ) * chart_height / 10)
      "#ddd")) ++
  ((List.range 11).map (fun i =>
    SvgElem.textNum (margin - 10) (margin + (i : ℝ) * chart_height / 10 + 5)
      (10 - (i : ℝ)))) ++
  (x_labels.map (fun eth =>
    SvgElem.line (mapX eth) margin (mapX eth) (margin + chart_height)
      "#ddd")) ++
  (x_labels.map (fun eth =>
    SvgElem.textNum (mapX eth) (margin + chart_height + 20) eth)) ++
  [SvgElem.polyline (curvePoints eth_amounts love_multipliers)] ++
  ((circleCenters eth_amounts love_multipliers).map (fun c =>
    SvgElem.circle c.1 c.2 3)) ++
  [SvgElem.line margin margin (margin + chart_width) margin "green",
   SvgElem.text (margin + chart_width + 10) (margin + 5) "Max (10x)",
   SvgElem.line margin (margin + chart_height * 0.45) (margin + chart_width)
     (margin + chart_height * 0.45) "orange",
   SvgElem.text (margin + chart_width + 10) (margin + chart_height * 0.45 + 5)
     "Equilibrium (~5.5x)",
   SvgElem.line margin (margin + chart_height * 0.99) (margin + chart_width)
     (margin + chart_height * 0.99) "red",
   SvgElem.text (margin + chart_width + 10) (margin + chart_height * 0.99 + 5)
     "Min (0.1x)",
   SvgElem.text (width / 2) (height - 10) "Energy Level (ETH)",
   SvgElem.text 20 (height / 2) "Love Multiplier"] ++
  (zones_svg.map (fun z =>
    SvgElem.text (x_center z.1 z.2.1) (margin - 10) z.2.2.2))

/-- A full run of the SVG script: its two artifacts (the SVG file, and the
HTML file that embeds the same SVG next to a static table) as a function of
the dataset and of the probed environment.  The source consults nothing from
the environment when building these outputs. -/
noncomputable def chartRun (_env : Env)
    (eth_amounts love_multipliers : List ℝ) : List SvgElem × List SvgElem :=
  (svgElems eth_amounts love_multipliers,
   svgElems eth_amounts love_multipliers)

/-! ## Fallback rasterizer writes (generate_vrgda_png.py lines 154-237)

The fallback path fills a `height x 600`-row by `width = 800`-column pixel
grid; we collect, for each drawing stage, the set or list of (row, column)
indices it writes, to show every write is in bounds. -/

/-- The pixel grid write (row, col) is in bounds of the 600 x 800 image. -/
def inBoundsPix (p : ℤ × ℤ) : Prop :=
  0 ≤ p.1 ∧ p.1 < 600 ∧ 0 ≤ p.2 ∧ p.2 < 800

/-- Python `int()` truncation toward zero of a real. -/
noncomputable def pyInt (r : ℝ) : ℤ := if 0 ≤ r then ⌊r⌋ else ⌈r⌉

/-- Python `int()` truncation toward zero of a rational. -/
def pyIntQ (q : ℚ) : ℤ := if 0 ≤ q then ⌊q⌋ else ⌈q⌉

/-- From `generate_vrgda_png.py` lines 167-174 (fallback): zone boundaries and
fill colors. -/
noncomputable def zones_png : List (ℝ × ℝ × (ℕ × ℕ × ℕ)) :=
  [(0.0001, 0.001, (255, 229, 229)),
   (0.001, 0.1, (255, 240, 229)),
   (0.1, 1, (229, 245, 229)),
   (1, 10, (229, 229, 255)),
   (10, 100, (240, 229, 255)),
   (100, 200, (255, 229, 229))]

/-- From `generate_vrgda_png.py` lines 177-178: a zone endpoint mapped and
truncated, `int(margin + (log10(v) - log10(0.0001)) / (log10(200) -
log10(0.0001)) * chart_width)`. -/
noncomputable def zoneXInt (v : ℝ) : ℤ := pyInt (mapX v)

/-- From `generate_vrgda_png.py` lines 179-181: the (row, col) writes of one zone
fill with truncated endpoints x1, x2: rows `range(margin, height - margin)`,
cols `range(max(margin, x1), min(width - margin, x2))`. -/
def zoneFillWrite (x1 x2 : ℤ) (p : ℤ × ℤ) : Prop :=
  (60 ≤ p.1 ∧ p.1 < 600 - 60) ∧ (max 60 x1 ≤ p.2 ∧ p.2 < min (800 - 60) x2)

/-- From `generate_vrgda_png.py` lines 212-216: the writes of one interpolated
line step at (px, py), guarded by `0 <= py < height and 0 <= px < width`,
with the thickening writes at py-1 (guarded by `py > 0`) and py+1 (guarded
by `py < height-1`). -/
def lineStepWrites (py px : ℤ) : List (ℤ × ℤ) :=
  if 0 ≤ py ∧ py < 600 ∧ 0 ≤ px ∧ px < 800 then
    [(py, px)] ++ (if 0 < py then [(py - 1, px)] else []) ++
      (if py < 600 - 1 then [(py + 1, px)] else [])
  else []

/-- From `generate_vrgda_png.py` lines 205-216: the writes of the whole segment
from the previous point (px0, py0) to (x, y): `steps = max(abs(x - prev_x),
abs(y - prev_y))`, and for `j in range(steps + 1)` the interpolated pixel is
truncated from `prev + (cur - prev) * j / steps`. -/
def interpWrites (px0 py0 x y : ℤ) : List (ℤ × ℤ) :=
  let steps : ℕ := max (x - px0).natAbs (y - py0).natAbs
  if steps = 0 then []
  else
    (List.range (steps + 1)).flatMap (fun j =>
      lineStepWrites
        (pyIntQ ((py0 : ℚ) + ((y : ℚ) - (py0 : ℚ)) * (j : ℚ) / (steps : ℚ)))
        (pyIntQ ((px0 : ℚ) + ((x : ℚ) - (px0 : ℚ)) * (j : ℚ) / (steps : ℚ))))

/-- The offset list `range(-3, 4)`. -/
def circOffs : List ℤ := [-3, -2, -1, 0, 1, 2, 3]

/-- From `generate_vrgda_png.py` lines 219-224: the writes of one data-point
circle at (y, x): offsets dy, dx in [-3, 3] with dy² + dx² ≤ 9, each write
guarded by `0 <= py < height and 0 <= px < width`. -/
def pointWrites (y x : ℤ) : List (ℤ × ℤ) :=
  circOffs.flatMap (fun dy => circOffs.flatMap (fun dx =>
    if dy * dy + dx * dx ≤ 9 then
      (if 0 ≤ y + dy ∧ y + dy < 600 ∧ 0 ≤ x + dx ∧ x + dx < 800 then
        [(y + dy, x + dx)] else [])
    else []))

/-- From `generate_vrgda_png.py` lines 199-226: the curve-drawing loop over the
mapped dataset points, keeping (prev_x, prev_y): for each point, the
interpolated segment from the previous point (when one exists) followed by
the point circle. -/
def curveWrites : Option (ℤ × ℤ) → List (ℤ × ℤ) → List (ℤ × ℤ)
  | _, [] => []
  | none, (x, y) :: rest => pointWrites y x ++ curveWrites (some (x, y)) rest
  | some (px, py), (x, y) :: rest =>
      interpWrites px py x y ++ pointWrites y x ++ curveWrites (some (x, y)) rest

/-- From `generate_vrgda_png.py` lines 201-202: the mapped, truncated integer
coordinates of the dataset, `x = int(mapX eth)`, `y = int(mapY mult)`. -/
noncomputable def mappedPts (eth_amounts love_multipliers : List ℝ) :
    List (ℤ × ℤ) :=
  (eth_amounts.zip love_multipliers).map (fun p =>
    (pyInt (mapX p.1), pyInt (mapY p.2)))

/-- The denominator `log10(200) - log10(0.0001)` of the x mapping is positive. -/
theorem logDenom_pos : 0 < Real.logb 10 200 - Real.logb 10 0.0001 := by
  have h : Real.logb 10 0.0001 < Real.logb 10 200 :=
    Real.logb_lt_logb (by norm_num) (by norm_num) (by norm_num)
  linarith

/-- C2: for every x in [0.0001, 200] the mapped column equals the spec formula
`margin + (log10 x - log10 x_min) / (log10 x_max - log10 x_min) * chart_width`,
every y maps to the row `margin + (y_max - y) / y_max * chart_height`, and the
row mapping is strictly antitone: a larger y maps to a smaller row. -/
theorem C2_coordinate_mapping :
    (∀ x : ℝ, 0.0001 ≤ x → x ≤ 200 → mapX x = specColumn x) ∧
    (∀ y : ℝ, mapY y = specRow y) ∧
    (∀ y1 y2 : ℝ, y1 < y2 → mapY y2 < mapY y1) := by
  refine ⟨fun x _ _ => rfl, fun y => ?_, fun y1 y2 h => ?_⟩
  · simp only [mapY, specRow, y_max]
    ring
  · simp only [mapY, chart_height, height, margin]
    nlinarith

/-- Witness for C2 at x = 1, y-pair (0, 1). -/
theorem C2_coordinate_mapping_witness :
    mapX 1 = specColumn 1 ∧ mapY 0 = specRow 0 ∧ mapY 1 < mapY 0 :=
  ⟨C2_coordinate_mapping.1 1 (by norm_num) (by norm_num),
   C2_coordinate_mapping.2.1 0,
   C2_coordinate_mapping.2.2 0 1 (by norm_num)⟩

/-- C3: the log-scale column mapping is strictly monotonic on [0.0001, 200]:
if x1 < x2 then the mapped column of x1 is strictly below that of x2. -/
theorem C3_mapX_strictMono (x1 x2 : ℝ) (h0 : 0.0001 ≤ x1) (h12 : x1 < x2)
    (_h2 : x2 ≤ 200) : mapX x1 < mapX x2 := by
  have hx1 : (0 : ℝ) < x1 := lt_of_lt_of_le (by norm_num) h0
  have hlog : Real.logb 10 x1 < Real.logb 10 x2 :=
    Real.logb_lt_logb (by norm_num) hx1 h12
  have hcw : (0 : ℝ) < chart_width := by
    simp only [chart_width, width, margin]; norm_num
  simp only [mapX]
  have hdiv : (Real.logb 10 x1 - Real.logb 10 0.0001) /
      (Real.logb 10 200 - Real.logb 10 0.0001) <
      (Real.logb 10 x2 - Real.logb 10 0.0001) /
      (Real.logb 10 200 - Real.logb 10 0.0001) :=
    (div_lt_div_iff_of_pos_right logDenom_pos).mpr (by linarith)
  exact add_lt_add_left (mul_lt_mul_of_pos_right hdiv hcw) margin

/-- Witness for C3 at x1 = 1, x2 = 10. -/
theorem C3_mapX_strictMono_witness : mapX 1 < mapX 10 :=
  C3_mapX_strictMono 1 10 (by norm_num) (by norm_num) (by norm_num)

/-- Invariant of the running-minimum fold started in state `(some m, c)`:
either no element beats `m` and the state survives unchanged, or the final
payload belongs to the first element attaining the minimum distance. -/
theorem foldl_minStep_spec {α β γ : Type} [LinearOrder β] (k : α → β)
    (v : α → γ) (l : List α) : ∀ (m : β) (c : γ),
    (l.foldl (minStep k v) (some m, c) = (some m, c) ∧
      ∀ j (hj : j < l.length), m ≤ k (l.get ⟨j, hj⟩)) ∨
    (∃ (i : ℕ) (hi : i < l.length),
      k (l.get ⟨i, hi⟩) < m ∧
      (l.foldl (minStep k v) (some m, c)).2 = v (l.get ⟨i, hi⟩) ∧
      (∀ j (hj : j < l.length), k (l.get ⟨i, hi⟩) ≤ k (l.get ⟨j, hj⟩)) ∧
      (∀ j (hj : j < i), k (l.get ⟨i, hi⟩) < k (l.get ⟨j, lt_trans hj hi⟩))) := by
  induction l with
  | nil =>
    intro m c
    exact Or.inl ⟨rfl, fun j hj => absurd hj (Nat.not_lt_zero j)⟩
  | cons a l ih =>
    intro m c
    rw [List.foldl_cons]
    by_cases h : k a < m
    · rw [show minStep k v (some m, c) a = (some (k a), v a) by
        simp [minStep, h]]
      rcases ih (k a) (v a) with ⟨heq, hall⟩ | ⟨i, hi, hlt, hres, hmin, hfirst⟩
      · refine Or.inr ⟨0, Nat.succ_pos _, h, ?_, ?_, ?_⟩
        · rw [heq]; rfl
        · intro j hj
          cases j with
          | zero => exact le_refl _
          | succ j => exact hall j (Nat.lt_of_succ_lt_succ hj)
        · intro j hj
          exact absurd hj (Nat.not_lt_zero j)
      · refine Or.inr ⟨i + 1, Nat.succ_lt_succ hi, lt_trans hlt h, hres, ?_, ?_⟩
        · intro j hj
          cases j with
          | zero => exact le_of_lt hlt
          | succ j => exact hmin j (Nat.lt_of_succ_lt_succ hj)
        · intro j hj
          cases j with
          | zero => exact hlt
          | succ j => exact hfirst j (Nat.lt_of_succ_lt_succ hj)
    · rw [show minStep k v (some m, c) a = (some m, c) by
        simp [minStep, h]]
      rcases ih m c with ⟨heq, hall⟩ | ⟨i, hi, hlt, hres, hmin, hfirst⟩
      · refine Or.inl ⟨heq, ?_⟩
        intro j hj
        cases j with
        | zero => exact le_of_not_lt h
        | succ j => exact hall j (Nat.lt_of_succ_lt_succ hj)
      · refine Or.inr ⟨i + 1, Nat.succ_lt_succ hi, hlt, hres, ?_, ?_⟩
        · intro j hj
          cases j with
          | zero => exact le_of_lt (lt_of_lt_of_le hlt (le_of_not_lt h))
          | succ j => exact hmin j (Nat.lt_of_succ_lt_succ hj)
        · intro j hj
          cases j with
          | zero => exact lt_of_lt_of_le hlt (le_of_not_lt h)
          | succ j => exact hfirst j (Nat.lt_of_succ_lt_succ hj)

/-- On a non-empty list, the running-minimum loop returns the payload of the
first element attaining the minimum distance: the distance at the returned
index is a global minimum, and every strictly earlier element has strictly
larger distance (first-encountered minimum wins). -/
theorem trackMin_spec {α β γ : Type} [LinearOrder β] (k : α → β) (v : α → γ)
    (d : γ) (l : List α) (hne : l ≠ []) :
    ∃ (i : ℕ) (hi : i < l.length),
      trackMin k v d l = v (l.get ⟨i, hi⟩) ∧
      (∀ j (hj : j < l.length), k (l.get ⟨i, hi⟩) ≤ k (l.get ⟨j, hj⟩)) ∧
      (∀ j (hj : j < i), k (l.get ⟨i, hi⟩) < k (l.get ⟨j, lt_trans hj hi⟩)) := by
  match l with
  | [] => exact absurd rfl hne
  | a :: l =>
    unfold trackMin
    rw [List.foldl_cons, show minStep k v (none, d) a = (some (k a), v a) from rfl]
    rcases foldl_minStep_spec k v l (k a) (v a) with
      ⟨heq, hall⟩ | ⟨i, hi, hlt, hres, hmin, hfirst⟩
    · refine ⟨0, Nat.succ_pos _, ?_, ?_, ?_⟩
      · rw [heq]; rfl
      · intro j hj
        cases j with
        | zero => exact le_refl _
        | succ j => exact hall j (Nat.lt_of_succ_lt_succ hj)
      · intro j hj
        exact absurd hj (Nat.not_lt_zero j)
    · refine ⟨i + 1, Nat.succ_lt_succ hi, hres, ?_, ?_⟩
      · intro j hj
        cases j with
        | zero => exact le_of_lt hlt
        | succ j => exact hmin j (Nat.lt_of_succ_lt_succ hj)
      · intro j hj
        cases j with
        | zero => exact hlt
        | succ j => exact hfirst j (Nat.lt_of_succ_lt_succ hj)

/-- C1 counterexample: the claim covers the KEY THRESHOLDS table loop of
`plot_vrgda_curve_simple.py` (lines 98-106), but that loop does not pick the
sample of minimum absolute difference: on the dataset
[(0.995, 7), (1, 5)] with target 1 it returns multiplier 7 (the first sample
within the 0.01 tolerance), although the sample (1, 5) has strictly smaller
absolute difference from the target (0 < 0.005), and the genuine
minimum-difference search (`keyPointY`) returns 5 there. -/
theorem C1_counterexample :
    thresholdTableMult 1 [(199 / 200, 7), (1, 5)] = 7 ∧
    |(1 : ℚ) - 1| < |(199 / 200 : ℚ) - 1| ∧
    keyPointY 1 0 [(199 / 200, 7), (1, 5)] = 5 := by
  have habs : |(199 / 200 : ℚ) - 1| = 1 / 200 := by
    rw [show (199 / 200 : ℚ) - 1 = -(1 / 200) by norm_num, abs_neg,
      abs_of_nonneg (by norm_num : (0 : ℚ) ≤ 1 / 200)]
  have s1 : minStep (fun p : ℚ × ℚ => |p.1 - 1|) Prod.snd (none, 0)
      (199 / 200, 7) = (some (1 / 200), 7) := by
    simp [minStep, habs]
  have s2 : minStep (fun p : ℚ × ℚ => |p.1 - 1|) Prod.snd
      (some (1 / 200), 7) (1, 5) = (some 0, 5) := by
    norm_num [minStep]
  refine ⟨?_, by rw [habs]; norm_num, ?_⟩
  · rw [thresholdTableMult, if_pos]
    exact Or.inl (by rw [habs]; norm_num)
  · rw [keyPointY, trackMin, List.foldl_cons, s1, List.foldl_cons, s2,
      List.foldl_nil]

/-- C1 (amended): for every non-empty dataset, the matplotlib key-point
resolver (`actual_y` loop) returns the multiplier of the sample whose x has
minimum absolute difference from the target, and the ASCII chart's
`closest_idx` search returns the index of the sample whose log(x) has minimum
absolute difference from the column position; in both, when two samples are
equidistant the one appearing earlier in the dataset wins.  (The ASCII
script's KEY THRESHOLDS table loop, by contrast, picks the first sample
within a fixed tolerance, not the minimum-difference sample — see C10.) -/
theorem C1_closest_sample_first_min (x y_target : ℚ)
    (samples : List (ℚ × ℚ)) (hs : samples ≠ [])
    (pos : ℝ) (eths : List ℝ) (he : eths ≠ []) :
    (∃ (i : ℕ) (hi : i < samples.length),
      keyPointY x y_target samples = (samples.get ⟨i, hi⟩).2 ∧
      (∀ j (hj : j < samples.length),
        |(samples.get ⟨i, hi⟩).1 - x| ≤ |(samples.get ⟨j, hj⟩).1 - x|) ∧
      (∀ j (hj : j < i),
        |(samples.get ⟨i, hi⟩).1 - x| <
          |(samples.get ⟨j, lt_trans hj hi⟩).1 - x|)) ∧
    (∃ (i : ℕ) (hi : i < eths.length),
      closest_idx pos eths = i ∧
      (∀ j (hj : j < eths.length),
        |Real.log (eths.get ⟨i, hi⟩) - Real.log pos| ≤
          |Real.log (eths.get ⟨j, hj⟩) - Real.log pos|) ∧
      (∀ j (hj : j < i),
        |Real.log (eths.get ⟨i, hi⟩) - Real.log pos| <
          |Real.log (eths.get ⟨j, lt_trans hj hi⟩) - Real.log pos|)) := by
  constructor
  · exact trackMin_spec (fun p : ℚ × ℚ => |p.1 - x|) Prod.snd y_target
      samples hs
  · have hne : eths.enum ≠ [] := by
      intro h
      apply he
      have hl := congrArg List.length h
      simpa [List.enum_length, List.length_eq_zero] using hl
    obtain ⟨i, hi, h1, h2, h3⟩ :=
      trackMin_spec (fun p : ℕ × ℝ => |Real.log p.2 - Real.log pos|)
        Prod.fst 0 eths.enum hne
    have hlen : eths.enum.length = eths.length := List.enum_length
    have hget : ∀ (j : ℕ) (hj : j < eths.enum.length),
        eths.enum.get ⟨j, hj⟩ = (j, eths.get ⟨j, hlen ▸ hj⟩) := by
      intro j hj
      simp [List.get_eq_getElem, List.getElem_enum]
    refine ⟨i, hlen ▸ hi, ?_, ?_, ?_⟩
    · rw [hget i hi] at h1
      exact h1
    · intro j hj
      have h := h2 j (hlen ▸ hj)
      rw [hget i hi, hget j (hlen ▸ hj)] at h
      exact h
    · intro j hj
      have h := h3 j hj
      rw [hget i hi, hget j (lt_trans hj hi)] at h
      exact h

/-- Witness for the amended C1 at the dataset [(1, 5)] with target 1,
fallback 0, and at eths = [1] with position 1. -/
theorem C1_closest_sample_first_min_witness :
    (∃ (i : ℕ) (hi : i < [((1 : ℚ), (5 : ℚ))].length),
      keyPointY 1 0 [(1, 5)] = ([((1 : ℚ), (5 : ℚ))].get ⟨i, hi⟩).2 ∧
      (∀ j (hj : j < [((1 : ℚ), (5 : ℚ))].length),
        |([((1 : ℚ), (5 : ℚ))].get ⟨i, hi⟩).1 - 1| ≤
          |([((1 : ℚ), (5 : ℚ))].get ⟨j, hj⟩).1 - 1|) ∧
      (∀ j (hj : j < i),
        |([((1 : ℚ), (5 : ℚ))].get ⟨i, hi⟩).1 - 1| <
          |([((1 : ℚ), (5 : ℚ))].get ⟨j, lt_trans hj hi⟩).1 - 1|)) ∧
    (∃ (i : ℕ) (hi : i < [(1 : ℝ)].length),
      closest_idx 1 [(1 : ℝ)] = i ∧
      (∀ j (hj : j < [(1 : ℝ)].length),
        |Real.log ([(1 : ℝ)].get ⟨i, hi⟩) - Real.log 1| ≤
          |Real.log ([(1 : ℝ)].get ⟨j, hj⟩) - Real.log 1|) ∧
      (∀ j (hj : j < i),
        |Real.log ([(1 : ℝ)].get ⟨i, hi⟩) - Real.log 1| <
          |Real.log ([(1 : ℝ)].get ⟨j, lt_trans hj hi⟩) - Real.log 1|)) :=
  C1_closest_sample_first_min 1 0 [(1, 5)] (List.cons_ne_nil _ _) 1 [(1 : ℝ)]
    (List.cons_ne_nil _ _)

/-- Specification of the first-below scan of `plot_vrgda_curve.py`: if it
returns index i, then the multiplier at i is strictly below the threshold and
no strictly earlier multiplier is. -/
theorem firstBelowIdx_spec (threshold : ℚ) :
    ∀ (mults : List ℚ) (i : ℕ),
      firstBelowIdx threshold mults = some i →
      ∃ (hi : i < mults.length), mults.get ⟨i, hi⟩ < threshold ∧
        ∀ j (hj : j < i), ¬ mults.get ⟨j, lt_trans hj hi⟩ < threshold := by
  intro mults
  induction mults with
  | nil => intro i h; exact absurd h (by simp [firstBelowIdx])
  | cons m rest ih =>
    intro i h
    rw [firstBelowIdx] at h
    by_cases hm : m < threshold
    · rw [if_pos hm] at h
      obtain rfl : i = 0 := by simpa using h.symm
      exact ⟨Nat.succ_pos _, hm, fun j hj => absurd hj (Nat.not_lt_zero j)⟩
    · rw [if_neg hm] at h
      obtain ⟨i', hi', rfl⟩ : ∃ i', firstBelowIdx threshold rest = some i' ∧
          i' + 1 = i := by simpa [Option.map_eq_some'] using h
      obtain ⟨hlt, hbelow, hfirst⟩ := ih i' hi'
      refine ⟨Nat.succ_lt_succ hlt, hbelow, ?_⟩
      intro j hj
      cases j with
      | zero => exact hm
      | succ j => exact hfirst j (Nat.lt_of_succ_lt_succ hj)

/-- C4: the summary reporter scans the multipliers in input order and stops
at the first one strictly below the threshold; on y = [10, 7, 5.5, 4.8, 3]
with threshold 5 it reports index 3 (y = 4.8), not index 2, and in general a
reported index holds a value strictly below the threshold while all earlier
values do not. -/
theorem C4_first_below_scan :
    firstBelowIdx 5 [10, 7, 5.5, 4.8, 3] = some 3 ∧
    firstBelowIdx 1 [10, 7, 5.5, 4.8, 3] = none ∧
    (∀ (threshold : ℚ) (mults : List ℚ) (i : ℕ),
      firstBelowIdx threshold mults = some i →
      ∃ (hi : i < mults.length), mults.get ⟨i, hi⟩ < threshold ∧
        ∀ j (hj : j < i), ¬ mults.get ⟨j, lt_trans hj hi⟩ < threshold) :=
  ⟨by norm_num [firstBelowIdx], by norm_num [firstBelowIdx],
   fun threshold mults i h => firstBelowIdx_spec threshold mults i h⟩

/-- Witness for C4: the general scan property applied at threshold 5 on the
concrete list of the claim, whose scan result is index 3. -/
theorem C4_first_below_scan_witness :
    ∃ (hi : 3 < [(10 : ℚ), 7, 5.5, 4.8, 3].length),
      [(10 : ℚ), 7, 5.5, 4.8, 3].get ⟨3, hi⟩ < 5 ∧
      ∀ j (hj : j < 3),
        ¬ [(10 : ℚ), 7, 5.5, 4.8, 3].get ⟨j, lt_trans hj hi⟩ < 5 :=
  C4_first_below_scan.2.2 5 [10, 7, 5.5, 4.8, 3] 3
    (by norm_num [firstBelowIdx])

/-- If every field of every row parses, the CSV loading loop succeeds and
returns the two columns in row order. -/
theorem loadRows_ok (rows : List (Option ℚ × Option ℚ))
    (hall : ∀ r ∈ rows, r.1.isSome ∧ r.2.isSome) :
    ∃ xs ys : List ℚ, loadRows rows = Except.ok (xs, ys) ∧
      xs.length = rows.length ∧ ys.length = rows.length ∧
      rows = List.zipWith (fun x y => (some x, some y)) xs ys := by
  induction rows with
  | nil => exact ⟨[], [], rfl, rfl, rfl, rfl⟩
  | cons r rest ih =>
    obtain ⟨ox, oy⟩ := r
    obtain ⟨h1, h2⟩ := hall (ox, oy) (List.mem_cons_self _ _)
    obtain ⟨x, rfl⟩ := Option.isSome_iff_exists.mp h1
    obtain ⟨y, rfl⟩ := Option.isSome_iff_exists.mp h2
    obtain ⟨xs, ys, hrec, hlx, hly, hzip⟩ :=
      ih (fun r hr => hall r (List.mem_cons_of_mem _ hr))
    refine ⟨x :: xs, y :: ys, ?_, by simp [hlx], by simp [hly], ?_⟩
    · simp [loadRows, hrec]
    · rw [List.zipWith_cons_cons, ← hzip]

/-- If some field of some row fails to parse, the CSV loading loop fails. -/
theorem loadRows_error (rows : List (Option ℚ × Option ℚ))
    (hbad : ∃ r ∈ rows, r.1 = none ∨ r.2 = none) :
    loadRows rows = Except.error () := by
  induction rows with
  | nil => simp at hbad
  | cons r rest ih =>
    obtain ⟨ox, oy⟩ := r
    obtain ⟨r0, hmem, hr0⟩ := hbad
    rcases List.mem_cons.mp hmem with rfl | hmem2
    · rcases hr0 with h | h
      · obtain rfl : ox = none := h
        cases oy <;> rfl
      · obtain rfl : oy = none := h
        cases ox <;> rfl
    · have hrest := ih ⟨r0, hmem2, hr0⟩
      cases ox <;> cases oy <;> simp [loadRows, hrest]

/-- C5: if the file is readable and every x and y field parses as a number,
the loader returns two equal-length columns that preserve row order (the rows
are exactly the zip of the two columns); if the file is missing or unreadable,
or any field fails to parse, the error propagates. -/
theorem C5_loader_contract (rows : List (Option ℚ × Option ℚ))
    (hall : ∀ r ∈ rows, r.1.isSome ∧ r.2.isSome) :
    (∃ xs ys : List ℚ, loadCSV (some rows) = Except.ok (xs, ys) ∧
      xs.length = rows.length ∧ ys.length = rows.length ∧
      rows = List.zipWith (fun x y => (some x, some y)) xs ys) ∧
    loadCSV none = Except.error () ∧
    (∀ bad : List (Option ℚ × Option ℚ),
      (∃ r ∈ bad, r.1 = none ∨ r.2 = none) →
      loadCSV (some bad) = Except.error ()) :=
  ⟨loadRows_ok rows hall, rfl, fun bad hbad => loadRows_error bad hbad⟩

/-- Witness for C5 on the one-row file [(some 1, some 10)]. -/
theorem C5_loader_contract_witness :
    (∃ xs ys : List ℚ,
      loadCSV (some [(some 1, some 10)]) = Except.ok (xs, ys) ∧
      xs.length = [((some 1 : Option ℚ), (some 10 : Option ℚ))].length ∧
      ys.length = [((some 1 : Option ℚ), (some 10 : Option ℚ))].length ∧
      [((some 1 : Option ℚ), (some 10 : Option ℚ))] =
        List.zipWith (fun x y => (some x, some y)) xs ys) ∧
    loadCSV none = Except.error () ∧
    (∀ bad : List (Option ℚ × Option ℚ),
      (∃ r ∈ bad, r.1 = none ∨ r.2 = none) →
      loadCSV (some bad) = Except.error ()) :=
  C5_loader_contract [(some 1, some 10)] (by simp)

/-- C10: each KEY THRESHOLDS row prints the multiplier of the first sample
within the fixed tolerance of the target (absolute difference below 0.01, or
relative difference below 10 percent for targets at least 1); if no sample is
within tolerance the printed multiplier is the initial default 0, not a value
looked up in the dataset. -/
theorem C10_threshold_table_first_tol :
    (∀ (t : ℚ) (samples : List (ℚ × ℚ)),
      (∀ p ∈ samples, ¬ tableTol t p.1) →
      thresholdTableMult t samples = 0) ∧
    (∀ (t : ℚ) (samples : List (ℚ × ℚ)) (i : ℕ) (hi : i < samples.length),
      tableTol t (samples.get ⟨i, hi⟩).1 →
      (∀ j (hj : j < i), ¬ tableTol t (samples.get ⟨j, lt_trans hj hi⟩).1) →
      thresholdTableMult t samples = (samples.get ⟨i, hi⟩).2) := by
  constructor
  · intro t samples hnone
    induction samples with
    | nil => rfl
    | cons p rest ih =>
      obtain ⟨e, m⟩ := p
      rw [thresholdTableMult,
        if_neg (hnone (e, m) (List.mem_cons_self _ _))]
      exact ih (fun q hq => hnone q (List.mem_cons_of_mem _ hq))
  · intro t samples
    induction samples with
    | nil =>
      intro i hi
      exact absurd hi (Nat.not_lt_zero i)
    | cons p rest ih =>
      intro i hi htol hfirst
      obtain ⟨e, m⟩ := p
      cases i with
      | zero =>
        rw [thresholdTableMult, if_pos (show tableTol t e from htol)]
        rfl
      | succ i =>
        rw [thresholdTableMult,
          if_neg (show ¬ tableTol t e from hfirst 0 (Nat.succ_pos i))]
        exact ih i (Nat.lt_of_succ_lt_succ hi) htol
          (fun j hj => hfirst (j + 1) (Nat.succ_lt_succ hj))

/-- Witness for C10: no sample within tolerance on the empty dataset gives
the default 0, and the first in-tolerance sample of [(1, 5)] at target 1
gives 5. -/
theorem C10_threshold_table_first_tol_witness :
    thresholdTableMult 1 ([] : List (ℚ × ℚ)) = 0 ∧
    thresholdTableMult 1 [(1, 5)] = (5 : ℚ) :=
  ⟨C10_threshold_table_first_tol.1 1 [] (by simp),
   C10_threshold_table_first_tol.2 1 [(1, 5)] 0 (by norm_num)
     (Or.inl (by norm_num))
     (fun j hj => absurd hj (Nat.not_lt_zero j))⟩

/-- C7: in the matplotlib script the label of the zone [0.1, 1) (the third
zone iteration, with prev_x = 0.1) is placed at the geometric mean
sqrt(0.1 * 1); in the SVG script the zone-label pixel position `x_center` is
the arithmetic midpoint of the mapped endpoints, which equals the mapped
geometric mean of the endpoints. -/
theorem C7_zone_label_positions :
    zoneLabelXs.get? 2 = some (Real.sqrt (0.1 * 1)) ∧
    (∀ s e : ℝ, 0 < s → 0 < e →
      x_center s e = (mapX s + mapX e) / 2 ∧
      x_center s e = mapX (Real.sqrt (s * e))) := by
  constructor
  · norm_num [zoneLabelXs, zones_plot]
  · intro s e hs he
    constructor
    · simp only [x_center, mapX]
      ring
    · have hlog : Real.logb 10 (Real.sqrt (s * e)) =
          (Real.logb 10 s + Real.logb 10 e) / 2 := by
        simp only [Real.logb]
        rw [Real.log_sqrt (le_of_lt (mul_pos hs he)),
          Real.log_mul (ne_of_gt hs) (ne_of_gt he)]
        ring
      simp only [x_center, mapX, hlog]

/-- Witness for C7 at the zone [0.1, 1). -/
theorem C7_zone_label_positions_witness :
    zoneLabelXs.get? 2 = some (Real.sqrt (0.1 * 1)) ∧
    (x_center 0.1 1 = (mapX 0.1 + mapX 1) / 2 ∧
      x_center 0.1 1 = mapX (Real.sqrt (0.1 * 1))) :=
  ⟨C7_zone_label_positions.1,
   C7_zone_label_positions.2 0.1 1 (by norm_num) (by norm_num)⟩

/-- C6 counterexample: on the dataset xs = [1], ys = [5], the SVG script's
console output contains no dataset-range or threshold line at all, and
neither does the PNG script's on its PIL path — refuting the claim that
every script prints a summary of the dataset's range and threshold
crossings. -/
theorem C6_counterexample :
    (chartConsole [1] [5]).all (fun item => !(isStatB item)) = true ∧
    (pngConsole ⟨true, false, false, false⟩ [1] [5]).all
      (fun item => !(isStatB item)) = true :=
  ⟨rfl, rfl⟩

/-- C6 (amended): after saving its two image files, the matplotlib script
prints the dataset's min/max x and y and one crossing line per threshold
found; the ASCII script prints the ranges and the threshold table to the
console (its summary file is written only after those prints); the SVG and
PNG scripts print only artifact-path messages and notes, no dataset
summary. -/
theorem C6_console_summaries (eth_amounts love_multipliers : List ℚ)
    (env : Env) (_hx : eth_amounts ≠ []) (_hy : love_multipliers ≠ []) :
    ((plotConsole eth_amounts love_multipliers).take 2 =
      [ConsoleItem.savedTo "vrgda_curve_chart.png",
       ConsoleItem.savedTo "vrgda_curve_chart.pdf"]) ∧
    (ConsoleItem.summaryMinX (pyMin eth_amounts) ∈
        plotConsole eth_amounts love_multipliers ∧
      ConsoleItem.summaryMaxX (pyMax eth_amounts) ∈
        plotConsole eth_amounts love_multipliers ∧
      ConsoleItem.summaryMaxY (pyMax love_multipliers) ∈
        plotConsole eth_amounts love_multipliers ∧
      ConsoleItem.summaryMinY (pyMin love_multipliers) ∈
        plotConsole eth_amounts love_multipliers) ∧
    (∀ i, firstBelowIdx 5 love_multipliers = some i →
      ConsoleItem.crossing 5 (eth_amounts.getD i 0) ∈
        plotConsole eth_amounts love_multipliers) ∧
    (∀ i, firstBelowIdx 1 love_multipliers = some i →
      ConsoleItem.crossing 1 (eth_amounts.getD i 0) ∈
        plotConsole eth_amounts love_multipliers) ∧
    (ConsoleItem.summaryMinX (pyMin eth_amounts) ∈
        simpleConsole eth_amounts love_multipliers ∧
      ConsoleItem.summaryMaxX (pyMax eth_amounts) ∈
        simpleConsole eth_amounts love_multipliers ∧
      ConsoleItem.summaryMinY (pyMin love_multipliers) ∈
        simpleConsole eth_amounts love_multipliers ∧
      ConsoleItem.summaryMaxY (pyMax love_multipliers) ∈
        simpleConsole eth_amounts love_multipliers) ∧
    ((chartConsole eth_amounts love_multipliers).all
      (fun item => !(isStatB item)) = true) ∧
    ((pngConsole env eth_amounts love_multipliers).all
      (fun item => !(isStatB item)) = true) := by
  refine ⟨rfl, ⟨?_, ?_, ?_, ?_⟩, ?_, ?_, ⟨?_, ?_, ?_, ?_⟩, rfl, ?_⟩
  · simp [plotConsole]
  · simp [plotConsole]
  · simp [plotConsole]
  · simp [plotConsole]
  · intro i h
    simp [plotConsole, h]
  · intro i h
    simp [plotConsole, h]
  · simp [simpleConsole]
  · simp [simpleConsole]
  · simp [simpleConsole]
  · simp [simpleConsole]
  · obtain ⟨hp, hm, hc, hs⟩ := env
    cases hp <;> cases hm <;> cases hc <;> cases hs <;> rfl

/-- Witness for C6 on the dataset xs = [1], ys = [5] in the no-tools
environment. -/
theorem C6_console_summaries_witness :
    ((plotConsole [1] [5]).take 2 =
      [ConsoleItem.savedTo "vrgda_curve_chart.png",
       ConsoleItem.savedTo "vrgda_curve_chart.pdf"]) ∧
    (ConsoleItem.summaryMinX (pyMin [1]) ∈ plotConsole [1] [5] ∧
      ConsoleItem.summaryMaxX (pyMax [1]) ∈ plotConsole [1] [5] ∧
      ConsoleItem.summaryMaxY (pyMax [5]) ∈ plotConsole [1] [5] ∧
      ConsoleItem.summaryMinY (pyMin [5]) ∈ plotConsole [1] [5]) ∧
    (∀ i, firstBelowIdx 5 [5] = some i →
      ConsoleItem.crossing 5 (List.getD [1] i 0) ∈ plotConsole [1] [5]) ∧
    (∀ i, firstBelowIdx 1 [5] = some i →
      ConsoleItem.crossing 1 (List.getD [1] i 0) ∈ plotConsole [1] [5]) ∧
    (ConsoleItem.summaryMinX (pyMin [1]) ∈ simpleConsole [1] [5] ∧
      ConsoleItem.summaryMaxX (pyMax [1]) ∈ simpleConsole [1] [5] ∧
      ConsoleItem.summaryMinY (pyMin [5]) ∈ simpleConsole [1] [5] ∧
      ConsoleItem.summaryMaxY (pyMax [5]) ∈ simpleConsole [1] [5]) ∧
    ((chartConsole [1] [5]).all (fun item => !(isStatB item)) = true) ∧
    ((pngConsole ⟨false, false, false, false⟩ [1] [5]).all
      (fun item => !(isStatB item)) = true) :=
  C6_console_summaries [1] [5] ⟨false, false, false, false⟩
    (List.cons_ne_nil _ _) (List.cons_ne_nil _ _)

/-- C8: the rendering pipeline is deterministic — the SVG script's polyline
loop and circle loop, which recompute the coordinate transform independently
on the same x values, produce identical coordinates, and a rerun of the
script on the same dataset under any two environments produces identical
artifacts (the PNG script, whose artifact set does depend on tool
availability, is the exclusion the claim itself makes). -/
theorem C8_deterministic_rendering :
    (∀ eth_amounts love_multipliers : List ℝ,
      curvePoints eth_amounts love_multipliers =
        circleCenters eth_amounts love_multipliers) ∧
    (∀ (env1 env2 : Env) (eth_amounts love_multipliers : List ℝ),
      chartRun env1 eth_amounts love_multipliers =
        chartRun env2 eth_amounts love_multipliers) :=
  ⟨fun _ _ => rfl, fun _ _ _ _ => rfl⟩

/-- Every zone-fill write of the fallback rasterizer is in bounds: the
column range is clamped to [max(margin, x1), min(width - margin, x2)) and the
row range to [margin, height - margin), whatever the truncated endpoints
are. -/
theorem zoneFillWrite_inBounds (x1 x2 : ℤ) (p : ℤ × ℤ)
    (h : zoneFillWrite x1 x2 p) : inBoundsPix p := by
  unfold zoneFillWrite at h
  unfold inBoundsPix
  omega

/-- Every write of one guarded line step is in bounds, including the
thickening writes one row above and below. -/
theorem lineStepWrites_inBounds (py px : ℤ) (p : ℤ × ℤ)
    (hp : p ∈ lineStepWrites py px) : inBoundsPix p := by
  unfold lineStepWrites at hp
  by_cases h : 0 ≤ py ∧ py < 600 ∧ 0 ≤ px ∧ px < 800
  · rw [if_pos h] at hp
    obtain ⟨h1, h2, h3, h4⟩ := h
    simp only [List.append_assoc, List.mem_append, List.mem_singleton] at hp
    rcases hp with hp | hp | hp
    · subst hp
      exact ⟨h1, h2, h3, h4⟩
    · by_cases h5 : 0 < py
      · rw [if_pos h5] at hp
        simp only [List.mem_singleton] at hp
        subst hp
        exact ⟨by omega, by omega, h3, h4⟩
      · rw [if_neg h5] at hp
        simp at hp
    · by_cases h6 : py < 600 - 1
      · rw [if_pos h6] at hp
        simp only [List.mem_singleton] at hp
        subst hp
        exact ⟨by omega, by omega, h3, h4⟩
      · rw [if_neg h6] at hp
        simp at hp
  · rw [if_neg h] at hp
    simp at hp

/-- Every write of one data-point circle is in bounds, thanks to the
explicit per-pixel guard. -/
theorem pointWrites_inBounds (y x : ℤ) (p : ℤ × ℤ)
    (hp : p ∈ pointWrites y x) : inBoundsPix p := by
  unfold pointWrites at hp
  simp only [List.mem_flatMap] at hp
  obtain ⟨dy, _, dx, _, hmem⟩ := hp
  by_cases h9 : dy * dy + dx * dx ≤ 9
  · rw [if_pos h9] at hmem
    by_cases hb : 0 ≤ y + dy ∧ y + dy < 600 ∧ 0 ≤ x + dx ∧ x + dx < 800
    · rw [if_pos hb] at hmem
      simp only [List.mem_singleton] at hmem
      subst hmem
      exact ⟨hb.1, hb.2.1, hb.2.2.1, hb.2.2.2⟩
    · rw [if_neg hb] at hmem
      simp at hmem
  · rw [if_neg h9] at hmem
    simp at hmem

/-- Every write of one interpolated segment is in bounds. -/
theorem interpWrites_inBounds (px0 py0 x y : ℤ) (p : ℤ × ℤ)
    (hp : p ∈ interpWrites px0 py0 x y) : inBoundsPix p := by
  simp only [interpWrites] at hp
  split at hp
  · simp at hp
  · simp only [List.mem_flatMap] at hp
    obtain ⟨j, _, hmem⟩ := hp
    exact lineStepWrites_inBounds _ _ p hmem

/-- Every write of the whole curve-drawing loop is in bounds. -/
theorem curveWrites_inBounds :
    ∀ (prev : Option (ℤ × ℤ)) (pts : List (ℤ × ℤ)) (p : ℤ × ℤ),
      p ∈ curveWrites prev pts → inBoundsPix p := by
  intro prev pts
  induction pts generalizing prev with
  | nil =>
    intro p hp
    cases prev <;> simp [curveWrites] at hp
  | cons q rest ih =>
    intro p hp
    obtain ⟨qx, qy⟩ := q
    cases prev with
    | none =>
      rw [curveWrites] at hp
      rcases List.mem_append.mp hp with h | h
      · exact pointWrites_inBounds qy qx p h
      · exact ih (some (qx, qy)) p h
    | some pq =>
      obtain ⟨px, py⟩ := pq
      rw [curveWrites] at hp
      rcases List.mem_append.mp hp with h | h
      · rcases List.mem_append.mp h with h2 | h2
        · exact interpWrites_inBounds px py qx qy p h2
        · exact pointWrites_inBounds qy qx p h2
      · exact ih (some (qx, qy)) p h

/-- C9: in the PNG script's fallback rasterizer, for any dataset with
strictly positive x values, every pixel write is in bounds of the 600 x 800
grid: all curve writes (interpolated segments, thickening, point circles)
are covered by their explicit guards, and every zone fill is clamped to the
chart area whatever the mapped endpoints truncate to. -/
theorem C9_fallback_raster_in_bounds (eth_amounts love_multipliers : List ℝ)
    (_hpos : ∀ e ∈ eth_amounts, 0 < e) :
    (∀ p ∈ curveWrites none (mappedPts eth_amounts love_multipliers),
      inBoundsPix p) ∧
    (∀ z ∈ zones_png, ∀ p,
      zoneFillWrite (zoneXInt z.1) (zoneXInt z.2.1) p → inBoundsPix p) :=
  ⟨fun p hp => curveWrites_inBounds none _ p hp,
   fun _ _ p hp => zoneFillWrite_inBounds _ _ p hp⟩

/-- Witness for C9 on the one-sample dataset x = [1], y = [5]. -/
theorem C9_fallback_raster_in_bounds_witness :
    (∀ p ∈ curveWrites none (mappedPts [1] [5]), inBoundsPix p) ∧
    (∀ z ∈ zones_png, ∀ p,
      zoneFillWrite (zoneXInt z.1) (zoneXInt z.2.1) p → inBoundsPix p) :=
  C9_fallback_raster_in_bounds [1] [5] (by norm_num)

end VRGDA
